import Mathlib

/-!
Verification of the urban-heat analysis backend (services/funding.py,
services/analysis.py, services/satellite.py) against its specification.

Modelling conventions:
* Python floats are modelled as exact rationals (ℚ); the synthetic
  temperature model, which uses sin/cos/sqrt, is modelled over ℝ.
* Python's round(x, n) is modelled as half-up rounding at n decimal digits
  (pyRound below). CPython uses round-half-even on binary floats; the two
  agree except on exact representational ties, which the proofs below avoid.
* random.uniform(a, b) draws are modelled as an oracle u : ℕ → ℚ giving the
  value drawn for the i-th list item; realisability of a draw means
  membership in [a, b] for the range the code selects.
* satellite_service.get_temperature_at is consumed by analysis.py only
  through its "temperature_c" field, so the analysis functions take an
  oracle getTemp : ℚ → ℚ → Option ℚ (none models the raster sampler
  returning a record whose temperature_c is None).
* A Python run that raises an uncaught exception is modelled as
  Except.error with the exception name as the message.
-/

/-! ### Rounding (Python round, modelled half-up) -/

/-- Python round(x) to an integer, modelled as half-up rounding. -/
def pyRound (x : ℚ) : ℤ := Rat.floor (x + 1/2)

/-- Python round(x, 1). -/
def round1 (x : ℚ) : ℚ := ((pyRound (x * 10) : ℤ) : ℚ) / 10

/-- Python round(x, 2). -/
def round2 (x : ℚ) : ℚ := ((pyRound (x * 100) : ℤ) : ℚ) / 100

/-- Python round(x, 3). -/
def round3 (x : ℚ) : ℚ := ((pyRound (x * 1000) : ℤ) : ℚ) / 1000

/-- Python round(x, 6). -/
def round6 (x : ℚ) : ℚ := ((pyRound (x * 1000000) : ℤ) : ℚ) / 1000000

theorem pyRound_eq_round (x : ℚ) : pyRound x = round x := by
  rw [pyRound, Rat.floor_def', ← Rat.floor_def, round_eq]

theorem pyRound_mono {x y : ℚ} (h : x ≤ y) : pyRound x ≤ pyRound y := by
  rw [pyRound_eq_round, pyRound_eq_round, round_eq, round_eq]
  exact Int.floor_mono (by linarith)

theorem pyRound_nonneg {x : ℚ} (h : 0 ≤ x) : 0 ≤ pyRound x := by
  have h0 : pyRound 0 = 0 := by rw [pyRound_eq_round, round_zero]
  have := pyRound_mono h
  omega

theorem pyRound_le_add_half (x : ℚ) : (pyRound x : ℚ) ≤ x + 1/2 := by
  rw [pyRound_eq_round]
  exact_mod_cast round_le_add_half x

theorem pyRound_int (n : ℤ) : pyRound (n : ℚ) = n := by
  rw [pyRound_eq_round, round_intCast]

theorem round1_mono {x y : ℚ} (h : x ≤ y) : round1 x ≤ round1 y := by
  unfold round1
  have := pyRound_mono (show x * 10 ≤ y * 10 by linarith)
  have : ((pyRound (x * 10) : ℤ) : ℚ) ≤ ((pyRound (y * 10) : ℤ) : ℚ) := by exact_mod_cast this
  linarith

theorem round1_nonneg {x : ℚ} (h : 0 ≤ x) : 0 ≤ round1 x := by
  unfold round1
  have := pyRound_nonneg (show (0:ℚ) ≤ x * 10 by linarith)
  positivity

theorem round2_nonneg {x : ℚ} (h : 0 ≤ x) : 0 ≤ round2 x := by
  unfold round2
  have := pyRound_nonneg (show (0:ℚ) ≤ x * 100 by linarith)
  positivity

theorem round2_le_add (x : ℚ) : round2 x ≤ x + 1/200 := by
  unfold round2
  have := pyRound_le_add_half (x * 100)
  linarith

theorem round1_int_mul {n : ℤ} {x : ℚ} (hx : x = (n : ℚ) / 10) : round1 x = x := by
  subst hx
  unfold round1
  rw [show (n : ℚ) / 10 * 10 = (n : ℚ) by ring, pyRound_int]

/-! ### Funding service: src/backend/services/funding.py -/

/-- One entry of REGIONAL_COSTS (funding.py lines 11-30). -/
structure RegionalCost where
  tree : ℚ
  cool_roof_sqm : ℚ
  bio_swale : ℚ
  labor_multiplier : ℚ
deriving DecidableEq

/-- REGIONAL_COSTS.get(region, REGIONAL_COSTS["default"]) (funding.py line 87). -/
def REGIONAL_COSTS (region : String) : RegionalCost :=
  if region = "vancouver" then ⟨450, 85, 1200, 1.3⟩
  else if region = "nyc" then ⟨550, 95, 1500, 1.5⟩
  else ⟨350, 75, 1000, 1.0⟩

/-- An intervention/tree dict as passed to the services; absent keys are none. -/
structure Intervention where
  type? : Option String := none
  species? : Option String := none
  lat? : Option ℚ := none
  lon? : Option ℚ := none
  position? : Option (ℚ × ℚ) := none
deriving DecidableEq

/-- item.get("type", "tree"). -/
def kindOf (item : Intervention) : String := item.type?.getD "tree"

/-- item.get("species", "maple"). -/
def speciesOf (item : Intervention) : String := item.species?.getD "maple"

/-- Per-kind accumulators of the loop in get_realistic_costs (funding.py 89-119). -/
structure CostTally where
  tree_cost : ℚ := 0
  tree_count : ℕ := 0
  roof_cost : ℚ := 0
  roof_count : ℕ := 0
  swale_cost : ℚ := 0
  swale_count : ℕ := 0
deriving DecidableEq

/-- One iteration of the for-loop of get_realistic_costs (funding.py 96-119). -/
def costStep (costs : RegionalCost) (acc : CostTally) (item : Intervention) : CostTally :=
  let itype := kindOf item
  if itype = "tree" then
    let species := speciesOf item
    let base := costs.tree
    let add := if species = "oak" then base * 1.3
               else if species = "pine" then base * 0.7
               else base
    { acc with tree_cost := acc.tree_cost + add, tree_count := acc.tree_count + 1 }
  else if itype = "cool_roof" then
    { acc with roof_cost := acc.roof_cost + costs.cool_roof_sqm * 200,
               roof_count := acc.roof_count + 1 }
  else if itype = "bio_swale" then
    { acc with swale_cost := acc.swale_cost + costs.bio_swale,
               swale_count := acc.swale_count + 1 }
  else acc

structure CostItemized where
  materials : ℚ
  labor : ℚ
  permits : ℚ
  design_engineering : ℚ
  contingency : ℚ
deriving DecidableEq

structure KindSummary where
  count : ℕ
  cost : ℚ
deriving DecidableEq

structure CostBreakdown where
  region : String
  itemized : CostItemized
  trees : KindSummary
  cool_roofs : KindSummary
  bio_swales : KindSummary
  total_cost : ℚ
deriving DecidableEq

/-- FundingService.get_realistic_costs (funding.py 74-145). -/
def get_realistic_costs (interventions : List Intervention) (region : String) :
    CostBreakdown :=
  let costs := REGIONAL_COSTS region
  let t := interventions.foldl (costStep costs) {}
  let materials_total := t.tree_cost + t.roof_cost + t.swale_cost
  let labor := materials_total * (costs.labor_multiplier - 1)
  let permits : ℚ := (interventions.length : ℚ) * 150
  let design := materials_total * 0.15
  let contingency := materials_total * 0.1
  let total := materials_total + labor + permits + design + contingency
  { region := region
    itemized := ⟨round2 materials_total, round2 labor, round2 permits,
                 round2 design, round2 contingency⟩
    trees := ⟨t.tree_count, round2 t.tree_cost⟩
    cool_roofs := ⟨t.roof_count, round2 t.roof_cost⟩
    bio_swales := ⟨t.swale_count, round2 t.swale_cost⟩
    total_cost := round2 total }

/-- One funding_breakdown entry; the display description strings are omitted. -/
structure FundingSource where
  source : String
  type : String
  amount : ℚ
deriving DecidableEq

/-- Return value of calculate_funding_mix (funding.py 213-219); funding_coverage
is the source's funding_ratio field. -/
structure FundingMix where
  total_cost : ℚ
  funding_sources : List FundingSource
  net_city_cost : ℚ
  debt_service_annual : ℚ
  funding_coverage : ℚ
deriving DecidableEq

/-- FundingService._calculate_bond_payment (funding.py 221-225). -/
def bondPayment (principal rate : ℚ) (years : ℕ) : ℚ :=
  if rate = 0 then principal / (years : ℚ)
  else principal * (rate * (1 + rate) ^ years) / ((1 + rate) ^ years - 1)

/-- Step 1 of the waterfall: carbon revenue (funding.py 158-159). -/
def carbonRevenue (co2_offset_kg : ℚ) : ℚ := co2_offset_kg / 1000 * 35

/-- Step 2: federal grant, min(total_cost * 0.4, 1000000) (funding.py 169-173). -/
def federalMatch (total_cost : ℚ) : ℚ := min (total_cost * 0.4) 1000000

/-- Step 3: municipal match, min(total_cost * 0.5, 500000, remaining)
(funding.py 183-188). -/
def municipalContribution (total_cost co2_offset_kg : ℚ) : ℚ :=
  min (total_cost * 0.5)
    (min 500000 (total_cost - carbonRevenue co2_offset_kg - federalMatch total_cost))

/-- remaining after steps 1-3, i.e. the principal of the green bond when
positive (funding.py 195). -/
def bondRemainder (total_cost co2_offset_kg : ℚ) : ℚ :=
  total_cost - carbonRevenue co2_offset_kg - federalMatch total_cost -
    municipalContribution total_cost co2_offset_kg

/-- FundingService.calculate_funding_mix (funding.py 147-219).
The three branches mirror how the final return expression evaluates:
when remaining > 0 the bond branch ran (annual_payment bound, remaining set
to 0); when remaining == 0 the bond branch was skipped and the return
expression reads the never-assigned local annual_payment, so the call raises
UnboundLocalError; remaining < 0 cannot occur but is translated as the code
would behave (debt_service falls back to 0). -/
def calculate_funding_mix (total_cost co2_offset_kg : ℚ) : Except String FundingMix :=
  let rem := bondRemainder total_cost co2_offset_kg
  let base_sources : List FundingSource :=
    [⟨"Carbon Offset Credits", "revenue", round2 (carbonRevenue co2_offset_kg)⟩,
     ⟨"Federal Infrastructure Grant", "grant", round2 (federalMatch total_cost)⟩,
     ⟨"Municipal Climate Action Fund", "budget",
       round2 (municipalContribution total_cost co2_offset_kg)⟩]
  if rem > 0 then
    Except.ok
      { total_cost := round2 total_cost
        funding_sources := base_sources ++ [⟨"Municipal Green Bonds", "debt", round2 rem⟩]
        net_city_cost := round2 (municipalContribution total_cost co2_offset_kg)
        debt_service_annual := round2 (bondPayment rem 0.03 10)
        funding_coverage := if total_cost > 0 then round3 ((total_cost - 0) / total_cost) else 0 }
  else if rem = 0 then
    Except.error "UnboundLocalError: annual_payment"
  else
    Except.ok
      { total_cost := round2 total_cost
        funding_sources := base_sources
        net_city_cost := round2 (municipalContribution total_cost co2_offset_kg)
        debt_service_annual := round2 0
        funding_coverage := if total_cost > 0 then round3 ((total_cost - rem) / total_cost) else 0 }

/-- Sum of the recorded amounts of the non-debt funding sources. -/
def nonDebtSum (r : FundingMix) : ℚ :=
  ((r.funding_sources.filter (fun s => s.type ≠ "debt")).map (fun s => s.amount)).sum

/-- nonDebtSum lifted to a possibly-failed run. -/
def nonDebtSumE : Except String FundingMix → Option ℚ
  | Except.ok r => some (nonDebtSum r)
  | Except.error _ => none

theorem bondRemainder_nonneg (T co2 : ℚ) : 0 ≤ bondRemainder T co2 := by
  unfold bondRemainder municipalContribution
  have h1 : min (T * 0.5) (min 500000 (T - carbonRevenue co2 - federalMatch T)) ≤
      T - carbonRevenue co2 - federalMatch T :=
    le_trans (min_le_right _ _) (min_le_right _ _)
  linarith

/-- Evaluation of calculate_funding_mix when a green bond is issued. -/
theorem calculate_funding_mix_of_pos {T co2 : ℚ} (h : 0 < bondRemainder T co2) :
    calculate_funding_mix T co2 = Except.ok
      { total_cost := round2 T
        funding_sources :=
          [⟨"Carbon Offset Credits", "revenue", round2 (carbonRevenue co2)⟩,
           ⟨"Federal Infrastructure Grant", "grant", round2 (federalMatch T)⟩,
           ⟨"Municipal Climate Action Fund", "budget", round2 (municipalContribution T co2)⟩,
           ⟨"Municipal Green Bonds", "debt", round2 (bondRemainder T co2)⟩]
        net_city_cost := round2 (municipalContribution T co2)
        debt_service_annual := round2 (bondPayment (bondRemainder T co2) 0.03 10)
        funding_coverage := if T > 0 then round3 ((T - 0) / T) else 0 } := by
  simp only [calculate_funding_mix, List.cons_append, List.nil_append]
  rw [if_pos (by exact_mod_cast h)]

/-- Evaluation of calculate_funding_mix when no bond is needed: the code
raises UnboundLocalError reading the unassigned annual_payment. -/
theorem calculate_funding_mix_of_zero {T co2 : ℚ} (h : bondRemainder T co2 = 0) :
    calculate_funding_mix T co2 = Except.error "UnboundLocalError: annual_payment" := by
  simp only [calculate_funding_mix]
  rw [if_neg (by simp [h]), if_pos h]

/-- Claim C1: get_realistic_costs on an empty list does return the all-zero
cost structure, but calculate_funding_mix(0, 0) does not return an all-zero
allocation: it raises UnboundLocalError, because the return expression reads
annual_payment, which is only assigned inside the skipped bond branch. -/
theorem C1_empty_cost_zero_allocation :
    get_realistic_costs [] "vancouver" =
      { region := "vancouver", itemized := ⟨0, 0, 0, 0, 0⟩, trees := ⟨0, 0⟩,
        cool_roofs := ⟨0, 0⟩, bio_swales := ⟨0, 0⟩, total_cost := 0 } ∧
    calculate_funding_mix 0 0 = Except.error "UnboundLocalError: annual_payment" := by
  constructor
  · norm_num [get_realistic_costs, REGIONAL_COSTS, List.foldl, round2, pyRound,
      Rat.floor_def']
  · exact calculate_funding_mix_of_zero (by
      norm_num [bondRemainder, carbonRevenue, federalMatch, municipalContribution])

/-- The concrete run used to refute claim C2 as stated. -/
def C2run : Except String FundingMix := calculate_funding_mix (1/80) (1/35)

/-- Claim C2 counterexample: with total_cost = 1/80 = 0.0125 and
co2_offset_kg = 1/35 (both non-negative), the allocator completes and the
recorded non-debt amounts (0.00 + 0.01 + 0.01) sum to 0.02, which exceeds
total_cost: the claimed bound fails. -/
theorem C2_counterexample :
    (0 : ℚ) ≤ 1/80 ∧ (0 : ℚ) ≤ 1/35 ∧
    nonDebtSumE C2run = some (1/50) ∧ ¬ ((1/50 : ℚ) ≤ 1/80) := by
  have hrem : bondRemainder (1/80) (1/35) = 1/4000 := by
    norm_num [bondRemainder, carbonRevenue, federalMatch, municipalContribution, min_def]
  have hrun : nonDebtSumE C2run = some (1/50) := by
    rw [C2run, calculate_funding_mix_of_pos (by rw [hrem]; norm_num)]
    have h1 : round2 (carbonRevenue (1/35)) = 0 := by
      norm_num [carbonRevenue, round2, pyRound, Rat.floor_def']
    have h2 : round2 (federalMatch (1/80)) = 1/100 := by
      norm_num [federalMatch, round2, pyRound, Rat.floor_def', min_def]
    have h3 : round2 (municipalContribution (1/80) (1/35)) = 1/100 := by
      norm_num [municipalContribution, carbonRevenue, federalMatch, round2, pyRound,
        Rat.floor_def', min_def]
    simp only [nonDebtSumE, nonDebtSum]
    norm_num [List.filter, h1, h2, h3,
      show decide ("revenue" = "debt") = false from rfl,
      show decide ("grant" = "debt") = false from rfl,
      show decide ("budget" = "debt") = false from rfl,
      show decide ("debt" = "debt") = true from rfl]
  exact ⟨by norm_num, by norm_num, hrun, by norm_num⟩

theorem municipalContribution_nonneg {T co2 : ℚ} (hT : 0 ≤ T)
    (hrem : 0 < bondRemainder T co2) : 0 ≤ municipalContribution T co2 := by
  have hlt : municipalContribution T co2 <
      T - carbonRevenue co2 - federalMatch T := by
    unfold bondRemainder at hrem
    linarith
  unfold municipalContribution at hlt ⊢
  rcases le_total (T * 0.5) (min 500000 (T - carbonRevenue co2 - federalMatch T)) with h | h
  · rw [min_eq_left h]
    linarith
  · rw [min_eq_right h] at hlt ⊢
    rcases le_total (500000 : ℚ) (T - carbonRevenue co2 - federalMatch T) with h2 | h2
    · rw [min_eq_left h2]
      norm_num
    · rw [min_eq_right h2] at hlt
      linarith

theorem carbonRevenue_nonneg {co2 : ℚ} (hc : 0 ≤ co2) : 0 ≤ carbonRevenue co2 := by
  unfold carbonRevenue
  positivity

theorem federalMatch_nonneg {T : ℚ} (hT : 0 ≤ T) : 0 ≤ federalMatch T := by
  unfold federalMatch
  have : 0 ≤ T * 0.4 := by positivity
  exact le_min this (by norm_num)

/-- Claim C2 (amended): for every total_cost ≥ 0 and co2_offset_kg ≥ 0 on
which the allocator completes (i.e. a green-bond entry is issued), every
recorded funding amount - carbon credits, federal grant, municipal budget and
green bonds - is non-negative, and the exact (pre-rounding) non-debt
allocations sum to strictly less than total_cost; the cent-rounded recorded
non-debt amounts can exceed total_cost, but by less than 0.015. -/
theorem C2_funding_nonneg_and_bounded (T co2 : ℚ) (hT : 0 ≤ T) (hc : 0 ≤ co2)
    (r : FundingMix) (h : calculate_funding_mix T co2 = Except.ok r) :
    (∀ s ∈ r.funding_sources, 0 ≤ s.amount) ∧
    carbonRevenue co2 + federalMatch T + municipalContribution T co2 < T ∧
    nonDebtSum r < T + 3/200 := by
  have hrem0 : 0 ≤ bondRemainder T co2 := bondRemainder_nonneg T co2
  rcases eq_or_lt_of_le hrem0 with heq | hpos
  · rw [calculate_funding_mix_of_zero heq.symm] at h
    cases h
  · rw [calculate_funding_mix_of_pos hpos] at h
    cases h
    have hcar := carbonRevenue_nonneg hc
    have hfed := federalMatch_nonneg hT
    have hmun := municipalContribution_nonneg hT hpos
    have hsum : carbonRevenue co2 + federalMatch T + municipalContribution T co2 < T := by
      unfold bondRemainder at hpos
      linarith
    refine ⟨?_, hsum, ?_⟩
    · intro s hs
      simp only [List.mem_cons, List.not_mem_nil, or_false] at hs
      rcases hs with rfl | rfl | rfl | rfl
      · exact round2_nonneg hcar
      · exact round2_nonneg hfed
      · exact round2_nonneg hmun
      · exact round2_nonneg (le_of_lt hpos)
    · have e : nonDebtSum
          { total_cost := round2 T
            funding_sources :=
              [⟨"Carbon Offset Credits", "revenue", round2 (carbonRevenue co2)⟩,
               ⟨"Federal Infrastructure Grant", "grant", round2 (federalMatch T)⟩,
               ⟨"Municipal Climate Action Fund", "budget", round2 (municipalContribution T co2)⟩,
               ⟨"Municipal Green Bonds", "debt", round2 (bondRemainder T co2)⟩]
            net_city_cost := round2 (municipalContribution T co2)
            debt_service_annual := round2 (bondPayment (bondRemainder T co2) 0.03 10)
            funding_coverage := if T > 0 then round3 ((T - 0) / T) else 0 } =
          round2 (carbonRevenue co2) + round2 (federalMatch T) +
            round2 (municipalContribution T co2) := by
        simp [nonDebtSum, List.filter,
          show decide ("revenue" = "debt") = false from rfl,
          show decide ("grant" = "debt") = false from rfl,
          show decide ("budget" = "debt") = false from rfl,
          show decide ("debt" = "debt") = true from rfl]
        ring
      rw [e]
      have b1 := round2_le_add (carbonRevenue co2)
      have b2 := round2_le_add (federalMatch T)
      have b3 := round2_le_add (municipalContribution T co2)
      linarith

/-- The allocation returned for total_cost = 100000, co2_offset_kg = 2000. -/
def C2witMix : FundingMix :=
  { total_cost := 100000
    funding_sources :=
      [⟨"Carbon Offset Credits", "revenue", 70⟩,
       ⟨"Federal Infrastructure Grant", "grant", 40000⟩,
       ⟨"Municipal Climate Action Fund", "budget", 50000⟩,
       ⟨"Municipal Green Bonds", "debt", 9930⟩]
    net_city_cost := 50000
    debt_service_annual := round2 (bondPayment 9930 0.03 10)
    funding_coverage := 1 }

/-- Witness for C2_funding_nonneg_and_bounded at total_cost = 100000 and
co2_offset_kg = 2000. -/
theorem C2_funding_witness :
    (∀ s ∈ C2witMix.funding_sources, 0 ≤ s.amount) ∧
    carbonRevenue 2000 + federalMatch 100000 + municipalContribution 100000 2000 < 100000 ∧
    nonDebtSum C2witMix < 100000 + 3/200 := by
  have hrem : bondRemainder 100000 2000 = 9930 := by
    norm_num [bondRemainder, carbonRevenue, federalMatch, municipalContribution, min_def]
  refine C2_funding_nonneg_and_bounded 100000 2000 (by norm_num) (by norm_num) C2witMix ?_
  rw [calculate_funding_mix_of_pos (by rw [hrem]; norm_num), hrem]
  norm_num [C2witMix, carbonRevenue, federalMatch, municipalContribution, min_def,
    round2, round3, pyRound, Rat.floor_def']

theorem round2_eq_self_of_int {x : ℚ} (n : ℤ) (h : x * 100 = (n : ℚ)) : round2 x = x := by
  unfold round2
  rw [h, pyRound_int]
  field_simp
  linarith

/-- The cost loop ignores an item whose type key is none of the three kinds. -/
theorem costStep_unknown (costs : RegionalCost) (acc : CostTally) (x : Intervention)
    (hx : kindOf x ≠ "tree" ∧ kindOf x ≠ "cool_roof" ∧ kindOf x ≠ "bio_swale") :
    costStep costs acc x = acc := by
  unfold costStep
  rw [if_neg hx.1, if_neg hx.2.1, if_neg hx.2.2]

theorem foldl_costStep_unknown (costs : RegionalCost) (items : List Intervention)
    (acc : CostTally)
    (hall : ∀ x ∈ items,
      kindOf x ≠ "tree" ∧ kindOf x ≠ "cool_roof" ∧ kindOf x ≠ "bio_swale") :
    items.foldl (costStep costs) acc = acc := by
  induction items generalizing acc with
  | nil => rfl
  | cons x xs ih =>
    rw [List.foldl_cons, costStep_unknown costs acc x (hall x (List.mem_cons_self x xs))]
    exact ih acc (fun y hy => hall y (List.mem_cons_of_mem x hy))

/-- Claim C10: get_realistic_costs charges the fixed 150-per-item permit fee
for every list element regardless of kind, so a non-empty list in which every
element has an unrecognized kind yields materials = labor = design =
contingency = 0 while total_cost = 150 * (number of items) ≠ 0. -/
theorem C10_permit_fee_for_unknown_kinds (region : String) (items : List Intervention)
    (hne : items ≠ [])
    (hall : ∀ x ∈ items,
      kindOf x ≠ "tree" ∧ kindOf x ≠ "cool_roof" ∧ kindOf x ≠ "bio_swale") :
    (get_realistic_costs items region).itemized.materials = 0 ∧
    (get_realistic_costs items region).itemized.labor = 0 ∧
    (get_realistic_costs items region).itemized.design_engineering = 0 ∧
    (get_realistic_costs items region).itemized.contingency = 0 ∧
    (get_realistic_costs items region).itemized.permits = 150 * (items.length : ℚ) ∧
    (get_realistic_costs items region).total_cost = 150 * (items.length : ℚ) ∧
    (get_realistic_costs items region).total_cost ≠ 0 := by
  have ht := foldl_costStep_unknown (REGIONAL_COSTS region) items {} hall
  have hlen : 0 < items.length := List.length_pos.mpr hne
  have hpermits : round2 ((items.length : ℚ) * 150) = (items.length : ℚ) * 150 :=
    round2_eq_self_of_int (15000 * (items.length : ℤ)) (by push_cast; ring)
  have h0 : round2 0 = 0 := round2_eq_self_of_int 0 (by norm_num)
  simp only [get_realistic_costs, ht]
  norm_num [h0, hpermits]
  constructor
  · linarith [hpermits]
  · exact hne

/-- A single intervention of unrecognized kind. -/
def C10witItems : List Intervention := [{ type? := some "fountain" }]

/-- Witness for C10_permit_fee_for_unknown_kinds on one "fountain" item in
region "nyc". -/
theorem C10_witness :
    C10witItems ≠ [] ∧
    (∀ x ∈ C10witItems,
      kindOf x ≠ "tree" ∧ kindOf x ≠ "cool_roof" ∧ kindOf x ≠ "bio_swale") ∧
    ((get_realistic_costs C10witItems "nyc").itemized.materials = 0 ∧
     (get_realistic_costs C10witItems "nyc").itemized.labor = 0 ∧
     (get_realistic_costs C10witItems "nyc").itemized.design_engineering = 0 ∧
     (get_realistic_costs C10witItems "nyc").itemized.contingency = 0 ∧
     (get_realistic_costs C10witItems "nyc").itemized.permits = 150 * (C10witItems.length : ℚ) ∧
     (get_realistic_costs C10witItems "nyc").total_cost = 150 * (C10witItems.length : ℚ) ∧
     (get_realistic_costs C10witItems "nyc").total_cost ≠ 0) :=
  ⟨by decide, by decide,
   C10_permit_fee_for_unknown_kinds "nyc" C10witItems (by decide) (by decide)⟩

/-! ### Analysis service: src/backend/services/analysis.py -/

/-- The fields of a TREE_SPECIES entry consumed by the computations below
(analysis.py 16-56). -/
structure SpeciesProfile where
  cooling_c : ℚ
  cost : ℚ
deriving DecidableEq

/-- TREE_SPECIES lookup (analysis.py 16-56). -/
def TREE_SPECIES (id : String) : Option SpeciesProfile :=
  if id = "oak" then some ⟨4, 450⟩
  else if id = "maple" then some ⟨2.5, 300⟩
  else if id = "pine" then some ⟨1.5, 200⟩
  else none

/-- TREE_SPECIES.get(species_id, TREE_SPECIES["maple"]) (analysis.py 526, 628). -/
def speciesProfileOf (id : String) : SpeciesProfile := (TREE_SPECIES id).getD ⟨2.5, 300⟩

/-- INTERVENTION_TYPES (analysis.py 60-83): cool_roof has cooling_c 4.0 and
cost_per_unit 3000; bio_swale has cooling_c 2.0 and cost_per_unit 1000. -/
structure RoiKind where
  count : ℕ
  cost : ℚ
  cooling_c : ℚ
deriving DecidableEq

/-- Return value of calculate_roi (analysis.py 563-578); the realistic_costs
and funding keys are absent (none) in the empty-input branch. -/
structure Roi where
  total_cost : ℚ
  total_cooling_c : ℚ
  energy_saved_yearly : ℤ
  co2_offset_kg : ℚ
  trees : RoiKind
  cool_roofs : RoiKind
  bio_swales : RoiKind
  payback_years : ℚ
  people_benefited : ℕ
  realistic_costs : Option CostBreakdown
  funding : Option FundingMix
deriving DecidableEq

/-- The nine per-kind accumulators of calculate_roi (analysis.py 511-519). -/
structure RoiTally where
  tree_count : ℕ := 0
  tree_cost : ℚ := 0
  tree_cooling : ℚ := 0
  roof_count : ℕ := 0
  roof_cost : ℚ := 0
  roof_cooling : ℚ := 0
  swale_count : ℕ := 0
  swale_cost : ℚ := 0
  swale_cooling : ℚ := 0
deriving DecidableEq

/-- One iteration of the loop in calculate_roi (analysis.py 521-537). -/
def roiStep (acc : RoiTally) (item : Intervention) : RoiTally :=
  let itype := kindOf item
  if itype = "tree" then
    let species := speciesProfileOf (speciesOf item)
    { acc with tree_count := acc.tree_count + 1,
               tree_cost := acc.tree_cost + species.cost,
               tree_cooling := acc.tree_cooling + species.cooling_c * 0.1 }
  else if itype = "cool_roof" then
    { acc with roof_count := acc.roof_count + 1,
               roof_cost := acc.roof_cost + 3000,
               roof_cooling := acc.roof_cooling + 4 * 0.08 }
  else if itype = "bio_swale" then
    { acc with swale_count := acc.swale_count + 1,
               swale_cost := acc.swale_cost + 1000,
               swale_cooling := acc.swale_cooling + 2 * 0.06 }
  else acc

/-- AnalysisService.calculate_roi (analysis.py 487-578). The nested
calculate_funding_mix call can raise UnboundLocalError (see C1), which
propagates out of calculate_roi. -/
def calculate_roi (interventions : List Intervention) (region : String) :
    Except String Roi :=
  if interventions = [] then
    Except.ok
      { total_cost := 0
        total_cooling_c := 0
        energy_saved_yearly := 0
        co2_offset_kg := 0
        trees := ⟨0, 0, 0⟩
        cool_roofs := ⟨0, 0, 0⟩
        bio_swales := ⟨0, 0, 0⟩
        payback_years := 0
        people_benefited := 0
        realistic_costs := none
        funding := none }
  else
    let t := interventions.foldl roiStep {}
    let total_cooling := round2 (t.tree_cooling + t.roof_cooling + t.swale_cooling)
    let buildings : ℤ :=
      max 10 (3 * (t.tree_count : ℤ) + 5 * (t.roof_count : ℤ) + 2 * (t.swale_count : ℤ))
    let energy_saved : ℤ := pyRound (total_cooling * 90 * (buildings : ℚ))
    let co2_offset : ℚ :=
      22 * (t.tree_count : ℚ) + 15 * (t.roof_count : ℚ) + 8 * (t.swale_count : ℚ)
    let realistic := get_realistic_costs interventions region
    match calculate_funding_mix realistic.total_cost co2_offset with
    | Except.error e => Except.error e
    | Except.ok fm =>
      Except.ok
        { total_cost := t.tree_cost + t.roof_cost + t.swale_cost
          total_cooling_c := total_cooling
          energy_saved_yearly := energy_saved
          co2_offset_kg := co2_offset
          trees := ⟨t.tree_count, t.tree_cost, round2 t.tree_cooling⟩
          cool_roofs := ⟨t.roof_count, t.roof_cost, round2 t.roof_cooling⟩
          bio_swales := ⟨t.swale_count, t.swale_cost, round2 t.swale_cooling⟩
          payback_years :=
            if 0 < energy_saved then
              round1 (realistic.total_cost / ((max 1 energy_saved : ℤ) : ℚ))
            else 0
          people_benefited := 50 * t.tree_count + 80 * t.roof_count + 30 * t.swale_count
          realistic_costs := some realistic
          funding := some fm }

/-- Per-item cooling of simulate_cooling_v2 (analysis.py 625-645); u is the
random.uniform multiplier drawn for this item (the tree bands differ only in
the range u is drawn from, see treeDrawRangeV2), and an unknown kind gets the
fixed default cooling 1.0 with no draw. -/
def itemCoolingV2 (itype species : String) (u : ℚ) : ℚ :=
  if itype = "tree" then round1 ((speciesProfileOf species).cooling_c * u)
  else if itype = "cool_roof" then round1 (4 * u)
  else if itype = "bio_swale" then round1 (2 * u)
  else 1

/-- The random.uniform range for a v2 tree multiplier by local-temperature
band (analysis.py 631-637); cool roofs draw from [0.8, 1.2] and bio-swales
from [0.7, 1.1]. -/
def treeDrawRangeV2 (local_temp : ℚ) : ℚ × ℚ :=
  if 45 ≤ local_temp then (1.1, 1.4)
  else if 38 ≤ local_temp then (0.8, 1.1)
  else (0.5, 0.8)

/-- One element of tree_impacts in simulate_cooling_v2 (analysis.py 648-657). -/
structure ImpactV2 where
  index : ℕ
  type : String
  species : Option String
  lat : ℚ
  lon : ℚ
  surface_temp_before : ℚ
  cooling_c : ℚ
  surface_temp_after : ℚ
deriving DecidableEq

/-- The per-item loop of simulate_cooling_v2 (analysis.py 617-657). A sampled
temperature_c of None makes the Python comparisons/subtraction raise
TypeError, modelled as an error. -/
def impactsV2 (getTemp : ℚ → ℚ → Option ℚ) (u : ℕ → ℚ) :
    ℕ → List Intervention → Except String (List ImpactV2)
  | _, [] => Except.ok []
  | i, item :: rest =>
    let lat := item.lat?.getD 0
    let lon := item.lon?.getD 0
    match getTemp lat lon with
    | none => Except.error "TypeError: NoneType comparison"
    | some local_temp =>
      let itype := kindOf item
      let cooling := itemCoolingV2 itype (speciesOf item) (u i)
      match impactsV2 getTemp u (i + 1) rest with
      | Except.error e => Except.error e
      | Except.ok tail =>
        Except.ok
          (⟨i, itype, item.species?, lat, lon, local_temp, cooling,
            round1 (local_temp - cooling)⟩ :: tail)

structure AreaStats where
  avg_temperature_c : ℚ
  max_temperature_c : ℚ
  red_zone_area_pct : ℚ
deriving DecidableEq

/-- Return value of simulate_cooling_v2 (analysis.py 673-690);
interventions_total is absent (none) in the empty-input branch. -/
structure SimResultV2 where
  before : AreaStats
  after : AreaStats
  trees_planted : ℕ
  interventions_total : Option ℕ
  total_cooling_c : ℚ
  area_cooling_c : ℚ
  tree_impacts : List ImpactV2
  roi : Roi
deriving DecidableEq

/-- AnalysisService.simulate_cooling_v2 (analysis.py 582-690), parametrised by
the temperature oracle, the draw oracle and the configured center coordinate
(settings.DEFAULT_LAT/LON used by _get_area_avg_temp, analysis.py 694-699). -/
def simulate_cooling_v2 (getTemp : ℚ → ℚ → Option ℚ) (u : ℕ → ℚ)
    (centerLat centerLon : ℚ) (interventions : List Intervention) :
    Except String SimResultV2 :=
  if interventions = [] then
    match getTemp centerLat centerLon with
    | none => Except.error "TypeError: NoneType arithmetic"
    | some avg_temp =>
      match calculate_roi [] "vancouver" with
      | Except.error e => Except.error e
      | Except.ok roi0 =>
        Except.ok
          { before := ⟨avg_temp, round1 (avg_temp + 8), 35⟩
            after := ⟨avg_temp, round1 (avg_temp + 8), 35⟩
            trees_planted := 0
            interventions_total := none
            total_cooling_c := 0
            area_cooling_c := 0
            tree_impacts := []
            roi := roi0 }
  else
    match impactsV2 getTemp u 0 interventions with
    | Except.error e => Except.error e
    | Except.ok impacts =>
      match getTemp centerLat centerLon with
      | none => Except.error "TypeError: NoneType arithmetic"
      | some avg_before =>
        let total_cooling := (impacts.map (fun im => im.cooling_c)).sum
        let n := interventions.length
        let area_cooling := min 15 (total_cooling * 0.25 * (1 - 0.015 * (n : ℚ)))
        let avg_after := round1 (avg_before - area_cooling)
        let before_max := round1 (avg_before + 8)
        let after_max := round1 (max (before_max - area_cooling * 1.2) (avg_after + 2))
        let after_red := round1 (max 3 (35 - (n : ℚ) * 2))
        match calculate_roi interventions "vancouver" with
        | Except.error e => Except.error e
        | Except.ok roi =>
          Except.ok
            { before := ⟨avg_before, before_max, 35⟩
              after := ⟨avg_after, after_max, after_red⟩
              trees_planted := (interventions.filter (fun x => kindOf x = "tree")).length
              interventions_total := some n
              total_cooling_c := round1 total_cooling
              area_cooling_c := round1 area_cooling
              tree_impacts := impacts
              roi := roi }

/-- tree.get("lat", tree.get("position", [0,0])[1] if "position" in tree
else 0) (analysis.py 208). -/
def latOfV1 (t : Intervention) : ℚ :=
  match t.lat? with
  | some v => v
  | none =>
    match t.position? with
    | some p => p.2
    | none => 0

/-- tree.get("lon", tree.get("position", [0,0])[0] if "position" in tree
else 0) (analysis.py 209). -/
def lonOfV1 (t : Intervention) : ℚ :=
  match t.lon? with
  | some v => v
  | none =>
    match t.position? with
    | some p => p.1
    | none => 0

/-- The random.uniform range of a v1 per-tree cooling draw, by local
temperature band (analysis.py 216-223); the draw itself is the cooling before
round(., 1). -/
def v1DrawRange (local_temp : ℚ) : ℚ × ℚ :=
  if 45 ≤ local_temp then (3.5, 5.5)
  else if 38 ≤ local_temp then (2, 4)
  else if 32 ≤ local_temp then (1, 2.5)
  else (0.5, 1.5)

/-- One element of tree_impacts in simulate_cooling (analysis.py 226-233). -/
structure ImpactV1 where
  tree_index : ℕ
  lat : ℚ
  lon : ℚ
  surface_temp_before : ℚ
  cooling_c : ℚ
  surface_temp_after : ℚ
deriving DecidableEq

/-- Return value of simulate_cooling (analysis.py 248-263); area_cooling_c is
absent (none) in the empty-input branch (analysis.py 188-202). -/
structure SimResultV1 where
  before : AreaStats
  after : AreaStats
  trees_planted : ℕ
  total_cooling_c : ℚ
  area_cooling_c : Option ℚ
  tree_impacts : List ImpactV1
deriving DecidableEq

/-- The per-tree loop of simulate_cooling (analysis.py 205-233). -/
def impactsV1 (getTemp : ℚ → ℚ → Option ℚ) (u : ℕ → ℚ) :
    ℕ → List Intervention → Except String (List ImpactV1)
  | _, [] => Except.ok []
  | i, tree :: rest =>
    let lat := latOfV1 tree
    let lon := lonOfV1 tree
    match getTemp lat lon with
    | none => Except.error "TypeError: NoneType comparison"
    | some local_temp =>
      let cooling := round1 (u i)
      match impactsV1 getTemp u (i + 1) rest with
      | Except.error e => Except.error e
      | Except.ok tail =>
        Except.ok
          (⟨i, lat, lon, local_temp, cooling, round1 (local_temp - cooling)⟩ :: tail)

/-- AnalysisService.simulate_cooling (analysis.py 172-263), parametrised like
simulate_cooling_v2. The unused bounds lookup of the empty branch (line 186)
has no observable effect and is not modelled. -/
def simulate_cooling (getTemp : ℚ → ℚ → Option ℚ) (u : ℕ → ℚ)
    (centerLat centerLon : ℚ) (trees : List Intervention) :
    Except String SimResultV1 :=
  if trees = [] then
    match getTemp centerLat centerLon with
    | none => Except.error "TypeError: NoneType arithmetic"
    | some avg_temp =>
      Except.ok
        { before := ⟨avg_temp, round1 (avg_temp + 8), 35⟩
          after := ⟨avg_temp, round1 (avg_temp + 8), 35⟩
          trees_planted := 0
          total_cooling_c := 0
          area_cooling_c := none
          tree_impacts := [] }
  else
    match impactsV1 getTemp u 0 trees with
    | Except.error e => Except.error e
    | Except.ok impacts =>
      match getTemp centerLat centerLon with
      | none => Except.error "TypeError: NoneType arithmetic"
      | some avg_before =>
        let total_cooling := (impacts.map (fun im => im.cooling_c)).sum
        let n := trees.length
        let area_cooling := min 12 (total_cooling * 0.3 * (1 - 0.02 * (n : ℚ)))
        let avg_after := round1 (avg_before - area_cooling)
        let before_max := round1 (avg_before + 8)
        let after_max := round1 (max (before_max - area_cooling * 1.2) (avg_after + 2))
        let after_red := round1 (max 5 (35 - (n : ℚ) * 2.5))
        Except.ok
          { before := ⟨avg_before, before_max, 35⟩
            after := ⟨avg_after, after_max, after_red⟩
            trees_planted := n
            total_cooling_c := round1 total_cooling
            area_cooling_c := some (round1 area_cooling)
            tree_impacts := impacts }

/-- Claim C9: simulating an empty intervention list is an exact no-op in both
simulators: before and after AreaStats are equal field-for-field,
total_cooling_c is 0 and the impact list is empty (given that the area
average temperature resolves to a numeric value t, as the sampler guarantees
whenever the configured center is covered). -/
theorem C9_empty_simulation_noop (getTemp : ℚ → ℚ → Option ℚ) (u : ℕ → ℚ)
    (cLat cLon t : ℚ) (h : getTemp cLat cLon = some t) :
    simulate_cooling_v2 getTemp u cLat cLon [] =
      Except.ok
        { before := ⟨t, round1 (t + 8), 35⟩
          after := ⟨t, round1 (t + 8), 35⟩
          trees_planted := 0
          interventions_total := none
          total_cooling_c := 0
          area_cooling_c := 0
          tree_impacts := []
          roi :=
            { total_cost := 0
              total_cooling_c := 0
              energy_saved_yearly := 0
              co2_offset_kg := 0
              trees := ⟨0, 0, 0⟩
              cool_roofs := ⟨0, 0, 0⟩
              bio_swales := ⟨0, 0, 0⟩
              payback_years := 0
              people_benefited := 0
              realistic_costs := none
              funding := none } } ∧
    simulate_cooling getTemp u cLat cLon [] =
      Except.ok
        { before := ⟨t, round1 (t + 8), 35⟩
          after := ⟨t, round1 (t + 8), 35⟩
          trees_planted := 0
          total_cooling_c := 0
          area_cooling_c := none
          tree_impacts := [] } := by
  constructor
  · simp [simulate_cooling_v2, h, calculate_roi]
  · simp [simulate_cooling, h]

/-- Witness for C9_empty_simulation_noop with the constant oracle 40. -/
theorem C9_witness :
    simulate_cooling_v2 (fun _ _ => some 40) (fun _ => 1) 0 0 [] =
      Except.ok
        { before := ⟨40, round1 (40 + 8), 35⟩
          after := ⟨40, round1 (40 + 8), 35⟩
          trees_planted := 0
          interventions_total := none
          total_cooling_c := 0
          area_cooling_c := 0
          tree_impacts := []
          roi :=
            { total_cost := 0
              total_cooling_c := 0
              energy_saved_yearly := 0
              co2_offset_kg := 0
              trees := ⟨0, 0, 0⟩
              cool_roofs := ⟨0, 0, 0⟩
              bio_swales := ⟨0, 0, 0⟩
              payback_years := 0
              people_benefited := 0
              realistic_costs := none
              funding := none } } ∧
    simulate_cooling (fun _ _ => some 40) (fun _ => 1) 0 0 [] =
      Except.ok
        { before := ⟨40, round1 (40 + 8), 35⟩
          after := ⟨40, round1 (40 + 8), 35⟩
          trees_planted := 0
          total_cooling_c := 0
          area_cooling_c := none
          tree_impacts := [] } :=
  C9_empty_simulation_noop (fun _ _ => some 40) (fun _ => 1) 0 0 40 rfl

theorem speciesProfileOf_cooling_pos (id : String) :
    0 < (speciesProfileOf id).cooling_c := by
  unfold speciesProfileOf TREE_SPECIES
  split_ifs <;> norm_num

theorem itemCoolingV2_nonneg (itype sp : String) {u : ℚ} (hu : 0 ≤ u) :
    0 ≤ itemCoolingV2 itype sp u := by
  unfold itemCoolingV2
  split_ifs
  · exact round1_nonneg (mul_nonneg (le_of_lt (speciesProfileOf_cooling_pos sp)) hu)
  · exact round1_nonneg (by linarith)
  · exact round1_nonneg (by linarith)
  · norm_num

theorem impactsV2_cooling_nonneg (getTemp : ℚ → ℚ → Option ℚ) (u : ℕ → ℚ)
    (hu : ∀ i, 0 ≤ u i) (items : List Intervention) :
    ∀ (i : ℕ) (l : List ImpactV2), impactsV2 getTemp u i items = Except.ok l →
      ∀ im ∈ l, 0 ≤ im.cooling_c := by
  induction items with
  | nil =>
    intro i l h im him
    simp only [impactsV2] at h
    cases h
    cases him
  | cons x rest ih =>
    intro i l h im him
    simp only [impactsV2] at h
    split at h
    · cases h
    · split at h
      · cases h
      · rename_i tail htail
        cases h
        rcases List.mem_cons.mp him with rfl | hmem
        · exact itemCoolingV2_nonneg _ _ (hu i)
        · exact ih (i + 1) tail htail im hmem

theorem impactsV1_cooling_nonneg (getTemp : ℚ → ℚ → Option ℚ) (u : ℕ → ℚ)
    (hu : ∀ i, 0 ≤ u i) (trees : List Intervention) :
    ∀ (i : ℕ) (l : List ImpactV1), impactsV1 getTemp u i trees = Except.ok l →
      ∀ im ∈ l, 0 ≤ im.cooling_c := by
  induction trees with
  | nil =>
    intro i l h im him
    simp only [impactsV1] at h
    cases h
    cases him
  | cons x rest ih =>
    intro i l h im him
    simp only [impactsV1] at h
    split at h
    · cases h
    · split at h
      · cases h
      · rename_i tail htail
        cases h
        rcases List.mem_cons.mp him with rfl | hmem
        · exact round1_nonneg (hu i)
        · exact ih (i + 1) tail htail im hmem

/-- Claim C3 (amended): whenever the enhanced simulator returns on a non-empty
list of at most 66 interventions (resp. the tree-only simulator on at most 50
trees), after.avg_temperature_c ≤ before.avg_temperature_c; and the returned
area_cooling_c never exceeds the cap (15 resp. 12) for any non-empty list.
With 67 (resp. 51) or more items the diminishing-returns factor 1 - 0.015*n
(resp. 1 - 0.02*n) is negative, area_cooling becomes negative, and the
average temperature rises instead (see the counterexample). -/
theorem C3_cooling_capped_and_cools :
    (∀ (getTemp : ℚ → ℚ → Option ℚ) (u : ℕ → ℚ) (cLat cLon : ℚ)
       (items : List Intervention) (r : SimResultV2),
      (∀ la lo t, getTemp la lo = some t → round1 t = t) →
      (∀ i, 0 ≤ u i) →
      items ≠ [] →
      simulate_cooling_v2 getTemp u cLat cLon items = Except.ok r →
      (items.length ≤ 66 →
        r.after.avg_temperature_c ≤ r.before.avg_temperature_c) ∧
      r.area_cooling_c ≤ 15) ∧
    (∀ (getTemp : ℚ → ℚ → Option ℚ) (u : ℕ → ℚ) (cLat cLon : ℚ)
       (trees : List Intervention) (r : SimResultV1),
      (∀ la lo t, getTemp la lo = some t → round1 t = t) →
      (∀ i, 0 ≤ u i) →
      trees ≠ [] →
      simulate_cooling getTemp u cLat cLon trees = Except.ok r →
      (trees.length ≤ 50 →
        r.after.avg_temperature_c ≤ r.before.avg_temperature_c) ∧
      (∀ a, r.area_cooling_c = some a → a ≤ 12)) := by
  constructor
  · intro getTemp u cLat cLon items r hR hu hne h
    simp only [simulate_cooling_v2, if_neg hne] at h
    split at h
    · cases h
    · rename_i impacts himp
      split at h
      · cases h
      · rename_i avg_before hT
        split at h
        · cases h
        · rename_i roi hroi
          cases h
          have htc : 0 ≤ (impacts.map (fun im => im.cooling_c)).sum := by
            refine List.sum_nonneg ?_
            intro x hx
            rcases List.mem_map.mp hx with ⟨im, him, rfl⟩
            exact impactsV2_cooling_nonneg getTemp u hu items 0 impacts himp im him
          have hcap : min 15 ((impacts.map (fun im => im.cooling_c)).sum * 0.25 *
              (1 - 0.015 * (items.length : ℚ))) ≤ 15 := min_le_left _ _
          constructor
          · intro hlen
            have hlen' : (items.length : ℚ) ≤ 66 := by exact_mod_cast hlen
            have hfac : 0 ≤ 1 - 0.015 * (items.length : ℚ) := by linarith
            have hA0 : 0 ≤ min 15 ((impacts.map (fun im => im.cooling_c)).sum * 0.25 *
                (1 - 0.015 * (items.length : ℚ))) := by
              refine le_min (by norm_num) ?_
              have : 0 ≤ (impacts.map (fun im => im.cooling_c)).sum * 0.25 := by linarith
              exact mul_nonneg this hfac
            show round1 (avg_before - _) ≤ avg_before
            calc round1 (avg_before - min 15 ((impacts.map (fun im => im.cooling_c)).sum *
                  0.25 * (1 - 0.015 * (items.length : ℚ)))) ≤ round1 avg_before :=
                round1_mono (by linarith)
              _ = avg_before := hR cLat cLon avg_before hT
          · show round1 _ ≤ 15
            calc round1 (min 15 ((impacts.map (fun im => im.cooling_c)).sum * 0.25 *
                  (1 - 0.015 * (items.length : ℚ)))) ≤ round1 15 := round1_mono hcap
              _ = 15 := round1_int_mul (n := 150) (by norm_num)
  · intro getTemp u cLat cLon trees r hR hu hne h
    simp only [simulate_cooling, if_neg hne] at h
    split at h
    · cases h
    · rename_i impacts himp
      split at h
      · cases h
      · rename_i avg_before hT
        cases h
        have htc : 0 ≤ (impacts.map (fun im => im.cooling_c)).sum := by
          refine List.sum_nonneg ?_
          intro x hx
          rcases List.mem_map.mp hx with ⟨im, him, rfl⟩
          exact impactsV1_cooling_nonneg getTemp u hu trees 0 impacts himp im him
        have hcap : min 12 ((impacts.map (fun im => im.cooling_c)).sum * 0.3 *
            (1 - 0.02 * (trees.length : ℚ))) ≤ 12 := min_le_left _ _
        constructor
        · intro hlen
          have hlen' : (trees.length : ℚ) ≤ 50 := by exact_mod_cast hlen
          have hfac : 0 ≤ 1 - 0.02 * (trees.length : ℚ) := by linarith
          have hA0 : 0 ≤ min 12 ((impacts.map (fun im => im.cooling_c)).sum * 0.3 *
              (1 - 0.02 * (trees.length : ℚ))) := by
            refine le_min (by norm_num) ?_
            have : 0 ≤ (impacts.map (fun im => im.cooling_c)).sum * 0.3 := by linarith
            exact mul_nonneg this hfac
          show round1 (avg_before - _) ≤ avg_before
          calc round1 (avg_before - min 12 ((impacts.map (fun im => im.cooling_c)).sum *
                0.3 * (1 - 0.02 * (trees.length : ℚ)))) ≤ round1 avg_before :=
              round1_mono (by linarith)
            _ = avg_before := hR cLat cLon avg_before hT
        · intro a ha
          simp only [Option.some.injEq] at ha
          subst ha
          calc round1 (min 12 ((impacts.map (fun im => im.cooling_c)).sum * 0.3 *
                (1 - 0.02 * (trees.length : ℚ)))) ≤ round1 12 := round1_mono hcap
            _ = 12 := round1_int_mul (n := 120) (by norm_num)

def v1BeforeAvg : Except String SimResultV1 → Option ℚ
  | Except.ok r => some r.before.avg_temperature_c
  | Except.error _ => none

def v1AfterAvg : Except String SimResultV1 → Option ℚ
  | Except.ok r => some r.after.avg_temperature_c
  | Except.error _ => none

/-- 51 trees at the center, each drawing cooling 3.0 (inside the 38-45 band's
range [2, 4]) over a uniform 40 degree surface. -/
def C3runV1 : Except String SimResultV1 :=
  simulate_cooling (fun _ _ => some 40) (fun _ => 3) 0 0 (List.replicate 51 {})

/-- Evaluation of the v1 per-tree loop on n default trees with a constant
oracle and constant draws. -/
theorem impactsV1_replicate_const (temp c : ℚ) :
    ∀ (n i : ℕ), ∃ l, impactsV1 (fun _ _ => some temp) (fun _ => c) i
        (List.replicate n {}) = Except.ok l ∧
      l.map (fun im => im.cooling_c) = List.replicate n (round1 c)
  | 0, i => ⟨[], by simp [impactsV1], by simp⟩
  | (n + 1), i => by
    obtain ⟨tl, htl, hmap⟩ := impactsV1_replicate_const temp c n (i + 1)
    refine ⟨⟨i, 0, 0, temp, round1 c, round1 (temp - round1 c)⟩ :: tl, ?_, ?_⟩
    · rw [List.replicate_succ]
      simp only [impactsV1, latOfV1, lonOfV1, htl]
    · simp [hmap, List.replicate_succ]

/-- Claim C3 counterexample: with 51 trees the tree-only simulator returns
after.avg_temperature_c = 40.9, strictly above before.avg_temperature_c = 40:
the factor 1 - 0.02 * 51 is negative, so area_cooling = -0.918 heats the
area. The draw 3.0 is realizable: it lies in the [2, 4] range the code
samples from at a 40 degree surface. -/
theorem C3_counterexample :
    (List.replicate 51 ({} : Intervention) ≠ []) ∧
    ((v1DrawRange 40).1 ≤ 3 ∧ (3 : ℚ) ≤ (v1DrawRange 40).2) ∧
    v1BeforeAvg C3runV1 = some 40 ∧
    v1AfterAvg C3runV1 = some (409/10) ∧
    ¬ ((409 : ℚ)/10 ≤ 40) := by
  obtain ⟨l, hok, hmap⟩ := impactsV1_replicate_const 40 3 51 0
  have h3 : round1 (3 : ℚ) = 3 := round1_int_mul (n := 30) (by norm_num)
  have hsum : (l.map (fun im => im.cooling_c)).sum = 153 := by
    rw [hmap, h3]
    simp [List.sum_replicate]
    norm_num
  have hrun : C3runV1 = simulate_cooling (fun _ _ => some 40) (fun _ => 3) 0 0
      (List.replicate 51 {}) := rfl
  refine ⟨by simp, by norm_num [v1DrawRange], ?_, ?_, by norm_num⟩
  · rw [hrun]
    simp only [simulate_cooling, if_neg (show List.replicate 51 ({} : Intervention) ≠ []
      by simp), hok, hsum, List.length_replicate]
    norm_num [v1BeforeAvg]
  · rw [hrun]
    simp only [simulate_cooling, if_neg (show List.replicate 51 ({} : Intervention) ≠ []
      by simp), hok, hsum, List.length_replicate]
    norm_num [v1AfterAvg, min_def, max_def, round1, pyRound, Rat.floor_def']

/-- The result of the tree-only simulator on one tree with draw 2.0 over a
uniform 40 degree surface. -/
def C3witResult : SimResultV1 :=
  { before := ⟨40, 48, 35⟩
    after := ⟨197/5, 473/10, 65/2⟩
    trees_planted := 1
    total_cooling_c := 2
    area_cooling_c := some (3/5)
    tree_impacts := [⟨0, 0, 0, 40, 2, 38⟩] }

/-- Witness for C3_cooling_capped_and_cools: its tree-only conjunct applied to
a single tree with draw 2.0 over a 40 degree surface. -/
theorem C3_witness :
    (([({} : Intervention)] : List Intervention).length ≤ 50 →
      C3witResult.after.avg_temperature_c ≤ C3witResult.before.avg_temperature_c) ∧
    (∀ a, C3witResult.area_cooling_c = some a → a ≤ 12) := by
  refine C3_cooling_capped_and_cools.2 (fun _ _ => some 40) (fun _ => 2) 0 0
    [{}] C3witResult ?_ (fun i => by norm_num) (by simp) ?_
  · intro la lo t h
    rw [show t = 40 from (Option.some.inj h).symm]
    exact round1_int_mul (n := 400) (by norm_num)
  · have h1 : impactsV1 (fun _ _ => some 40) (fun _ => 2) 0 [{}] =
        Except.ok [⟨0, 0, 0, 40, round1 2, round1 (40 - round1 2)⟩] := by
      simp [impactsV1, latOfV1, lonOfV1]
    simp only [simulate_cooling, if_neg (show [({} : Intervention)] ≠ [] by simp), h1]
    norm_num [C3witResult, round1, pyRound, Rat.floor_def', min_def, max_def]

/-- The ROI loop ignores an item whose type key is none of the three kinds. -/
theorem roiStep_unknown (acc : RoiTally) (x : Intervention)
    (hx : kindOf x ≠ "tree" ∧ kindOf x ≠ "cool_roof" ∧ kindOf x ≠ "bio_swale") :
    roiStep acc x = acc := by
  simp only [roiStep]
  rw [if_neg hx.1, if_neg hx.2.1, if_neg hx.2.2]

/-- Claim C4 (amended): for an intervention whose kind is none of tree,
cool_roof or bio_swale, the core does not fail and produces no invalid or
unknown marker: simulate_cooling_v2 silently assigns the fixed default
cooling 1.0 (whatever the draw), and the ROI and cost loops silently skip the
item (it contributes only the per-item permit fee, which is counted from the
list length). -/
theorem C4_unknown_kind_silently_defaults (k : String)
    (hk : k ≠ "tree" ∧ k ≠ "cool_roof" ∧ k ≠ "bio_swale") (sp : String) (u : ℚ)
    (item : Intervention) (hitem : kindOf item = k)
    (acc : RoiTally) (costs : RegionalCost) (acc2 : CostTally) :
    itemCoolingV2 k sp u = 1 ∧ roiStep acc item = acc ∧ costStep costs acc2 item = acc2 := by
  refine ⟨?_, ?_, ?_⟩
  · unfold itemCoolingV2
    rw [if_neg hk.1, if_neg hk.2.1, if_neg hk.2.2]
  · exact roiStep_unknown acc item
      ⟨by rw [hitem]; exact hk.1, by rw [hitem]; exact hk.2.1, by rw [hitem]; exact hk.2.2⟩
  · exact costStep_unknown costs acc2 item
      ⟨by rw [hitem]; exact hk.1, by rw [hitem]; exact hk.2.1, by rw [hitem]; exact hk.2.2⟩

/-- Witness for C4_unknown_kind_silently_defaults at kind "fountain". -/
theorem C4_witness :
    itemCoolingV2 "fountain" "maple" (17/10) = 1 ∧
    roiStep {} { type? := some "fountain" } = {} ∧
    costStep (REGIONAL_COSTS "vancouver") {} { type? := some "fountain" } = {} :=
  C4_unknown_kind_silently_defaults "fountain" (by decide) "maple" (17/10)
    { type? := some "fountain" } (by decide) {} (REGIONAL_COSTS "vancouver") {}

/-- A single unknown-kind intervention run through the enhanced simulator. -/
def C4run : Except String SimResultV2 :=
  simulate_cooling_v2 (fun _ _ => some 40) (fun _ => 1) 0 0 [{ type? := some "fountain" }]

/-- The (type, cooling_c) pairs of the returned per-item impacts, or none if
the simulation raised. -/
def v2ImpactSummary : Except String SimResultV2 → Option (List (String × ℚ))
  | Except.ok r => some (r.tree_impacts.map (fun im => (im.type, im.cooling_c)))
  | Except.error _ => none

set_option maxHeartbeats 1000000 in
/-- Claim C4 counterexample: a "fountain" intervention is not rejected and no
invalid/unknown marker appears anywhere: the simulator completes normally and
records an ordinary impact entry carrying the silently substituted default
cooling of 1.0. -/
theorem C4_counterexample : v2ImpactSummary C4run = some [("fountain", 1)] := by
  have hne2 : (([{ type? := some "fountain" }] : List Intervention) = []) = False := by
    simp
  have hunk : kindOf ({ type? := some "fountain" } : Intervention) ≠ "tree" ∧
      kindOf ({ type? := some "fountain" } : Intervention) ≠ "cool_roof" ∧
      kindOf ({ type? := some "fountain" } : Intervention) ≠ "bio_swale" := by decide
  have hs1 : (("fountain" : String) = "tree") = False := by simp
  have hs2 : (("fountain" : String) = "cool_roof") = False := by simp
  have hs3 : (("fountain" : String) = "bio_swale") = False := by simp
  have himp : impactsV2 (fun _ _ => some 40) (fun _ => 1) 0 [{ type? := some "fountain" }] =
      Except.ok [⟨0, "fountain", none, 0, 0, 40, 1, 39⟩] := by
    simp only [impactsV2, itemCoolingV2, kindOf, speciesOf]
    norm_num [hs1, hs2, hs3, round1, pyRound, Rat.floor_def']
  have hreal : get_realistic_costs [{ type? := some "fountain" }] "vancouver" =
      ⟨"vancouver", ⟨0, 0, 150, 0, 0⟩, ⟨0, 0⟩, ⟨0, 0⟩, ⟨0, 0⟩, 150⟩ := by
    have ht := foldl_costStep_unknown (REGIONAL_COSTS "vancouver")
      [{ type? := some "fountain" }] {} (by decide)
    simp only [get_realistic_costs, ht]
    norm_num [REGIONAL_COSTS, round2, pyRound, Rat.floor_def']
  have hrem : bondRemainder 150 0 = 15 := by
    norm_num [bondRemainder, carbonRevenue, federalMatch, municipalContribution, min_def]
  have hfm := @calculate_funding_mix_of_pos 150 0 (by rw [hrem]; norm_num)
  have ht2 : List.foldl roiStep {} [({ type? := some "fountain" } : Intervention)] =
      ({} : RoiTally) := by
    rw [List.foldl_cons, roiStep_unknown {} _ hunk, List.foldl_nil]
  have hroi : calculate_roi [{ type? := some "fountain" }] "vancouver" =
      Except.ok
        { total_cost := 0
          total_cooling_c := 0
          energy_saved_yearly := 0
          co2_offset_kg := 0
          trees := ⟨0, 0, 0⟩
          cool_roofs := ⟨0, 0, 0⟩
          bio_swales := ⟨0, 0, 0⟩
          payback_years := 0
          people_benefited := 0
          realistic_costs := some ⟨"vancouver", ⟨0, 0, 150, 0, 0⟩, ⟨0, 0⟩, ⟨0, 0⟩, ⟨0, 0⟩, 150⟩
          funding := some
            { total_cost := round2 150
              funding_sources :=
                [⟨"Carbon Offset Credits", "revenue", round2 (carbonRevenue 0)⟩,
                 ⟨"Federal Infrastructure Grant", "grant", round2 (federalMatch 150)⟩,
                 ⟨"Municipal Climate Action Fund", "budget", round2 (municipalContribution 150 0)⟩,
                 ⟨"Municipal Green Bonds", "debt", round2 (bondRemainder 150 0)⟩]
              net_city_cost := round2 (municipalContribution 150 0)
              debt_service_annual := round2 (bondPayment (bondRemainder 150 0) 0.03 10)
              funding_coverage := if (150 : ℚ) > 0 then round3 ((150 - 0) / 150) else 0 } } := by
    simp only [calculate_roi, hne2, ht2, hreal]
    norm_num
    rw [hfm]
    norm_num [round2, pyRound, Rat.floor_def', min_def, max_def]
  rw [show C4run = simulate_cooling_v2 (fun _ _ => some 40) (fun _ => 1) 0 0
    [{ type? := some "fountain" }] from rfl]
  simp only [simulate_cooling_v2, hne2, himp, hroi]
  norm_num [v2ImpactSummary]

/-! ### Region scanner: get_hotspots and get_suggestions (analysis.py) -/

/-- The bounds dict returned by satellite_service.get_bounds (always carries
all four keys when not None). -/
structure Bounds where
  north : ℚ
  south : ℚ
  east : ℚ
  west : ℚ
deriving DecidableEq

structure Hotspot where
  lat : ℚ
  lon : ℚ
  type : String
  temperature_c : ℚ
  description : String
  severity : String
deriving DecidableEq

/-- The 10 x 10 grid loop of get_hotspots (analysis.py 126-161), in row-major
append order: samples with truthy temperature at least 40 become records. -/
def hotspotCandidates (bounds : Bounds) (getTemp : ℚ → ℚ → Option ℚ) : List Hotspot :=
  let lat_step := (bounds.north - bounds.south) / 10
  let lon_step := (bounds.east - bounds.west) / 10
  (List.range 10).flatMap (fun i =>
    (List.range 10).filterMap (fun j =>
      let lat := bounds.south + (i : ℚ) * lat_step + lat_step / 2
      let lon := bounds.west + (j : ℚ) * lon_step + lon_step / 2
      match getTemp lat lon with
      | none => none
      | some temp =>
        if temp ≠ 0 ∧ 40 ≤ temp then
          some ⟨round6 lat, round6 lon,
            (if 50 ≤ temp then "parking"
             else if 47 ≤ temp then "intersection"
             else if 45 ≤ temp then "walkway" else "bus_stop"),
            round1 temp,
            (if 50 ≤ temp then "Extreme heat zone — likely asphalt or dark surface"
             else if 47 ≤ temp then "High-temperature area — exposed pavement or rooftop"
             else if 45 ≤ temp then "Hot walkway or plaza — minimal shade"
             else "Elevated heat area — potential intervention site"),
            (if 50 ≤ temp then "extreme" else if 45 ≤ temp then "high" else "elevated")⟩
        else none))

/-- hotspots.sort(key = temperature_c, reverse = True) comparison. -/
def hotterFirst (a b : Hotspot) : Prop := b.temperature_c ≤ a.temperature_c

instance : DecidableRel hotterFirst :=
  fun a b => inferInstanceAs (Decidable (b.temperature_c ≤ a.temperature_c))

instance : IsTotal Hotspot hotterFirst := ⟨fun a b => le_total b.temperature_c a.temperature_c⟩

instance : IsTrans Hotspot hotterFirst := ⟨fun _ _ _ h1 h2 => le_trans h2 h1⟩

/-- AnalysisService.get_hotspots (analysis.py 104-168): scan, sort hottest
first and truncate at 15; [] when bounds are unavailable. Python's stable
list.sort is modelled by insertion sort (no claim depends on tie order); the
process-wide memoization is transparent to the computed value. -/
def get_hotspots (bounds? : Option Bounds) (getTemp : ℚ → ℚ → Option ℚ) : List Hotspot :=
  match bounds? with
  | none => []
  | some bounds => ((hotspotCandidates bounds getTemp).insertionSort hotterFirst).take 15

structure Suggestion where
  lat : ℚ
  lon : ℚ
  cooling_potential : ℚ
  reason : String
  priority : String
  temperature_c : ℚ
deriving DecidableEq

/-- The 15 x 15 grid loop of get_suggestions (analysis.py 287-322): samples
with truthy temperature in [33, 46) become records. -/
def suggestionCandidates (bounds : Bounds) (getTemp : ℚ → ℚ → Option ℚ) :
    List Suggestion :=
  let lat_step := (bounds.north - bounds.south) / 15
  let lon_step := (bounds.east - bounds.west) / 15
  (List.range 15).flatMap (fun i =>
    (List.range 15).filterMap (fun j =>
      let lat := bounds.south + (i : ℚ) * lat_step + lat_step / 2
      let lon := bounds.west + (j : ℚ) * lon_step + lon_step / 2
      match getTemp lat lon with
      | none => none
      | some temp =>
        if temp ≠ 0 ∧ 33 ≤ temp ∧ temp < 46 then
          some ⟨round6 lat, round6 lon,
            round1 ((temp - 32) * 1.3),
            (if 42 ≤ temp then "High heat zone — urgent cooling intervention needed"
             else if 39 ≤ temp then "Elevated temperature area — tree shade will reduce heat load"
             else "Moderate heat zone — tree planting will prevent escalation"),
            (if 4 ≤ round1 ((temp - 32) * 1.3) then "high" else "medium"),
            round1 temp⟩
        else none))

/-- suggestions.sort(key = cooling_potential, reverse = True) comparison. -/
def highestPotentialFirst (a b : Suggestion) : Prop :=
  b.cooling_potential ≤ a.cooling_potential

instance : DecidableRel highestPotentialFirst :=
  fun a b => inferInstanceAs (Decidable (b.cooling_potential ≤ a.cooling_potential))

instance : IsTotal Suggestion highestPotentialFirst :=
  ⟨fun a b => le_total b.cooling_potential a.cooling_potential⟩

instance : IsTrans Suggestion highestPotentialFirst :=
  ⟨fun _ _ _ h1 h2 => le_trans h2 h1⟩

/-- AnalysisService.get_suggestions (analysis.py 267-331): scan, sort by
highest cooling potential and truncate at 12; [] when bounds are
unavailable. -/
def get_suggestions (bounds? : Option Bounds) (getTemp : ℚ → ℚ → Option ℚ) :
    List Suggestion :=
  match bounds? with
  | none => []
  | some bounds =>
    ((suggestionCandidates bounds getTemp).insertionSort highestPotentialFirst).take 12

/-- Both real samplers only ever return temperatures already rounded to one
decimal (satellite.py lines 89 and 209), so the oracle satisfies this. -/
def RoundedOracle (getTemp : ℚ → ℚ → Option ℚ) : Prop :=
  ∀ lat lon t, getTemp lat lon = some t → round1 t = t

/-- Claim C5: the hotspot scan returns at most 15 records, each with
temperature_c at least 40, sorted in descending order of temperature_c, with
severity extreme when the temperature is at least 50, high when at least 45,
and elevated otherwise. -/
theorem C5_hotspots_sound (bounds? : Option Bounds) (getTemp : ℚ → ℚ → Option ℚ)
    (hR : RoundedOracle getTemp) :
    (get_hotspots bounds? getTemp).length ≤ 15 ∧
    List.Sorted hotterFirst (get_hotspots bounds? getTemp) ∧
    ∀ h ∈ get_hotspots bounds? getTemp,
      40 ≤ h.temperature_c ∧
      h.severity = (if 50 ≤ h.temperature_c then "extreme"
                    else if 45 ≤ h.temperature_c then "high" else "elevated") := by
  match bounds? with
  | none => exact ⟨by simp [get_hotspots], by simp [get_hotspots], by simp [get_hotspots]⟩
  | some bounds =>
    have hcand : ∀ h ∈ hotspotCandidates bounds getTemp,
        40 ≤ h.temperature_c ∧
        h.severity = (if 50 ≤ h.temperature_c then "extreme"
                      else if 45 ≤ h.temperature_c then "high" else "elevated") := by
      intro h hh
      simp only [hotspotCandidates, List.mem_flatMap, List.mem_filterMap,
        List.mem_range] at hh
      obtain ⟨i, hi, j, hj, hsome⟩ := hh
      split at hsome
      · cases hsome
      · rename_i temp htemp
        split at hsome
        · rename_i hcond
          cases hsome
          have hrt : round1 temp = temp := hR _ _ temp htemp
          refine ⟨?_, ?_⟩
          · show 40 ≤ round1 temp
            rw [hrt]
            exact hcond.2
          · show _ = (if 50 ≤ round1 temp then "extreme"
              else if 45 ≤ round1 temp then "high" else "elevated")
            rw [hrt]
        · cases hsome
    refine ⟨?_, ?_, ?_⟩
    · exact List.length_take_le 15 _
    · exact (List.sorted_insertionSort hotterFirst
        (hotspotCandidates bounds getTemp)).sublist (List.take_sublist 15 _)
    · intro h hh
      have hmem : h ∈ (hotspotCandidates bounds getTemp).insertionSort hotterFirst :=
        List.mem_of_mem_take hh
      rw [List.mem_insertionSort] at hmem
      exact hcand h hmem

/-- Witness for C5_hotspots_sound at the constant 39 degree oracle over a unit
bounding box. -/
theorem C5_witness :
    (get_hotspots (some ⟨1, 0, 1, 0⟩) (fun _ _ => some 39)).length ≤ 15 ∧
    List.Sorted hotterFirst (get_hotspots (some ⟨1, 0, 1, 0⟩) (fun _ _ => some 39)) ∧
    ∀ h ∈ get_hotspots (some ⟨1, 0, 1, 0⟩) (fun _ _ => some 39),
      40 ≤ h.temperature_c ∧
      h.severity = (if 50 ≤ h.temperature_c then "extreme"
                    else if 45 ≤ h.temperature_c then "high" else "elevated") :=
  C5_hotspots_sound (some ⟨1, 0, 1, 0⟩) (fun _ _ => some 39)
    (fun _ _ t h => by
      rw [show t = 39 from (Option.some.inj h).symm]
      exact round1_int_mul (n := 390) (by norm_num))

/-- Claim C6: the planting-suggestion scan returns at most 12 records, each
with temperature_c in [33, 46), cooling_potential equal to
(temperature - 32) * 1.3 rounded to one decimal, priority high exactly when
cooling_potential is at least 4.0 (else medium), sorted in descending order
of cooling_potential. -/
theorem C6_suggestions_sound (bounds? : Option Bounds) (getTemp : ℚ → ℚ → Option ℚ)
    (hR : RoundedOracle getTemp) :
    (get_suggestions bounds? getTemp).length ≤ 12 ∧
    List.Sorted highestPotentialFirst (get_suggestions bounds? getTemp) ∧
    ∀ s ∈ get_suggestions bounds? getTemp,
      (33 ≤ s.temperature_c ∧ s.temperature_c < 46) ∧
      s.cooling_potential = round1 ((s.temperature_c - 32) * 1.3) ∧
      s.priority = (if 4 ≤ s.cooling_potential then "high" else "medium") := by
  match bounds? with
  | none =>
    exact ⟨by simp [get_suggestions], by simp [get_suggestions], by simp [get_suggestions]⟩
  | some bounds =>
    have hcand : ∀ s ∈ suggestionCandidates bounds getTemp,
        ((33 ≤ s.temperature_c ∧ s.temperature_c < 46) ∧
         s.cooling_potential = round1 ((s.temperature_c - 32) * 1.3) ∧
         s.priority = (if 4 ≤ s.cooling_potential then "high" else "medium")) := by
      intro s hs
      simp only [suggestionCandidates, List.mem_flatMap, List.mem_filterMap,
        List.mem_range] at hs
      obtain ⟨i, hi, j, hj, hsome⟩ := hs
      split at hsome
      · cases hsome
      · rename_i temp htemp
        split at hsome
        · rename_i hcond
          cases hsome
          have hrt : round1 temp = temp := hR _ _ temp htemp
          refine ⟨⟨?_, ?_⟩, ?_, ?_⟩
          · show 33 ≤ round1 temp
            rw [hrt]
            exact hcond.2.1
          · show round1 temp < 46
            rw [hrt]
            exact hcond.2.2
          · show round1 ((temp - 32) * 1.3) = round1 ((round1 temp - 32) * 1.3)
            rw [hrt]
          · rfl
        · cases hsome
    refine ⟨?_, ?_, ?_⟩
    · exact List.length_take_le 12 _
    · exact (List.sorted_insertionSort highestPotentialFirst
        (suggestionCandidates bounds getTemp)).sublist (List.take_sublist 12 _)
    · intro s hs
      have hmem : s ∈ (suggestionCandidates bounds getTemp).insertionSort
          highestPotentialFirst := List.mem_of_mem_take hs
      rw [List.mem_insertionSort] at hmem
      exact hcand s hmem

/-- Witness for C6_suggestions_sound at the constant 39 degree oracle over a
unit bounding box. -/
theorem C6_witness :
    (get_suggestions (some ⟨1, 0, 1, 0⟩) (fun _ _ => some 39)).length ≤ 12 ∧
    List.Sorted highestPotentialFirst
      (get_suggestions (some ⟨1, 0, 1, 0⟩) (fun _ _ => some 39)) ∧
    ∀ s ∈ get_suggestions (some ⟨1, 0, 1, 0⟩) (fun _ _ => some 39),
      (33 ≤ s.temperature_c ∧ s.temperature_c < 46) ∧
      s.cooling_potential = round1 ((s.temperature_c - 32) * 1.3) ∧
      s.priority = (if 4 ≤ s.cooling_potential then "high" else "medium") :=
  C6_suggestions_sound (some ⟨1, 0, 1, 0⟩) (fun _ _ => some 39)
    (fun _ _ t h => by
      rw [show t = 39 from (Option.some.inj h).symm]
      exact round1_int_mul (n := 390) (by norm_num))

/-! ### Satellite service: src/backend/services/satellite.py -/

/-- SatelliteService._convert_to_celsius (satellite.py 169-184). -/
def convert_to_celsius (raw_value : ℚ) : ℚ :=
  if -50 < raw_value ∧ raw_value < 80 then raw_value
  else if 200 < raw_value ∧ raw_value < 400 then raw_value - 273.15
  else if 20000 < raw_value ∧ raw_value < 40000 then raw_value / 100 - 273.15
  else raw_value

/-- Claim C7: unit normalization returns the value unchanged on the Celsius
range, subtracts 273.15 on the Kelvin range, divides by 100 and subtracts
273.15 on the Kelvin-times-100 range, and falls back to the raw value
everywhere else. The spec's ranges are the code's strict (open) intervals. -/
theorem C7_convert_to_celsius_ranges (v : ℚ) :
    ((-50 < v ∧ v < 80) → convert_to_celsius v = v) ∧
    ((200 < v ∧ v < 400) → convert_to_celsius v = v - 273.15) ∧
    ((20000 < v ∧ v < 40000) → convert_to_celsius v = v / 100 - 273.15) ∧
    (¬ (-50 < v ∧ v < 80) → ¬ (200 < v ∧ v < 400) → ¬ (20000 < v ∧ v < 40000) →
      convert_to_celsius v = v) := by
  unfold convert_to_celsius
  refine ⟨?_, ?_, ?_, ?_⟩
  · intro h
    rw [if_pos h]
  · intro h
    rw [if_neg (by rintro ⟨h1, h2⟩; linarith [h.1]), if_pos h]
  · intro h
    rw [if_neg (by rintro ⟨h1, h2⟩; linarith [h.1]),
      if_neg (by rintro ⟨h1, h2⟩; linarith [h.1]), if_pos h]
  · intro h1 h2 h3
    rw [if_neg h1, if_neg h2, if_neg h3]

/-- Witness for C7_convert_to_celsius_ranges at 25, 300, 30000 and the
out-of-range value 100000. -/
theorem C7_witness :
    convert_to_celsius 25 = 25 ∧
    convert_to_celsius 300 = 300 - 273.15 ∧
    convert_to_celsius 30000 = 30000 / 100 - 273.15 ∧
    convert_to_celsius 100000 = 100000 :=
  ⟨(C7_convert_to_celsius_ranges 25).1 (by norm_num),
   (C7_convert_to_celsius_ranges 300).2.1 (by norm_num),
   (C7_convert_to_celsius_ranges 30000).2.2.1 (by norm_num),
   (C7_convert_to_celsius_ranges 100000).2.2.2 (by norm_num) (by norm_num) (by norm_num)⟩

/-- A temperature sample dict; raw_value is only present on successful reads,
and error only on failed ones. -/
structure TempSample (α : Type) where
  lat : α
  lon : α
  temperature_c : Option α
  raw_value : Option α
  error : Option String
  source : String

/-- The raster state visible to get_temperature_at: a rectangular pixel grid
(self.data) plus the composed coordinate transform
rowcol(dataset.transform, transformer.transform(lon, lat)); none models the
transform raising, which the code catches (satellite.py 101-108). -/
structure RasterGrid where
  nrows : ℤ
  ncols : ℤ
  pixel : ℤ → ℤ → ℚ

/-- SatelliteService.get_temperature_at in raster-backed mode
(satellite.py 60-108). -/
def get_temperature_at_raster (transform : ℚ → ℚ → Option (ℤ × ℤ))
    (grid : RasterGrid) (lat lon : ℚ) : TempSample ℚ :=
  match transform lat lon with
  | none => ⟨lat, lon, none, none, some "exception during transform or read", "sentinel-2"⟩
  | some (row, col) =>
    if 0 ≤ row ∧ row < grid.nrows ∧ 0 ≤ col ∧ col < grid.ncols then
      ⟨lat, lon, some (round1 (convert_to_celsius (grid.pixel row col))),
        some (grid.pixel row col), none, "sentinel-2"⟩
    else
      ⟨lat, lon, none, none, some "Coordinate outside raster bounds", "sentinel-2"⟩

/-- Python round(x, 1) over the reals, for the synthetic model. -/
noncomputable def round1R (x : ℝ) : ℝ := ((round (x * 10) : ℤ) : ℝ) / 10

/-- SatelliteService._synthetic_temperature's temperature before rounding
(satellite.py 191-204): base + heat-island falloff + deterministic ripple. -/
noncomputable def synthetic_value (centerLat centerLon lat lon : ℝ) : ℝ :=
  let dist := Real.sqrt ((lat - centerLat) ^ 2 + (lon - centerLon) ^ 2)
  let heat_island_effect := max 0 (12 * (1 - dist / 0.05))
  28 + heat_island_effect + Real.sin (lat * 1000) * Real.cos (lon * 1000) * 3

/-- SatelliteService._synthetic_temperature (satellite.py 186-212). -/
noncomputable def synthetic_temperature (centerLat centerLon lat lon : ℝ) :
    TempSample ℝ :=
  ⟨lat, lon, some (round1R (synthetic_value centerLat centerLon lat lon)),
    some (synthetic_value centerLat centerLon lat lon), none, "synthetic"⟩

theorem round1R_mono {x y : ℝ} (h : x ≤ y) : round1R x ≤ round1R y := by
  unfold round1R
  have h1 : round (x * 10) ≤ round (y * 10) := by
    rw [round_eq, round_eq]
    exact Int.floor_mono (by linarith)
  have h2 : ((round (x * 10) : ℤ) : ℝ) ≤ ((round (y * 10) : ℤ) : ℝ) := by exact_mod_cast h1
  linarith

theorem round1R_int {n : ℤ} {x : ℝ} (hx : x = (n : ℝ) / 10) : round1R x = x := by
  subst hx
  unfold round1R
  rw [show (n : ℝ) / 10 * 10 = (n : ℝ) by ring, round_intCast]

theorem synthetic_value_bounds (centerLat centerLon lat lon : ℝ) :
    25 ≤ synthetic_value centerLat centerLon lat lon ∧
    synthetic_value centerLat centerLon lat lon ≤ 43 := by
  unfold synthetic_value
  have hd : 0 ≤ Real.sqrt ((lat - centerLat) ^ 2 + (lon - centerLon) ^ 2) :=
    Real.sqrt_nonneg _
  have hie0 : (0 : ℝ) ≤ max 0 (12 * (1 - Real.sqrt ((lat - centerLat) ^ 2 +
      (lon - centerLon) ^ 2) / 0.05)) := le_max_left 0 _
  have hie12 : max 0 (12 * (1 - Real.sqrt ((lat - centerLat) ^ 2 +
      (lon - centerLon) ^ 2) / 0.05)) ≤ 12 := by
    apply max_le (by norm_num)
    have : 0 ≤ Real.sqrt ((lat - centerLat) ^ 2 + (lon - centerLon) ^ 2) / 0.05 := by
      positivity
    nlinarith
  have hvar : |Real.sin (lat * 1000) * Real.cos (lon * 1000) * 3| ≤ 3 := by
    rw [abs_mul, abs_mul]
    have hs : |Real.sin (lat * 1000)| ≤ 1 := Real.abs_sin_le_one _
    have hc : |Real.cos (lon * 1000)| ≤ 1 := Real.abs_cos_le_one _
    have : |Real.sin (lat * 1000)| * |Real.cos (lon * 1000)| ≤ 1 :=
      mul_le_one₀ hs (abs_nonneg _) hc
    calc |Real.sin (lat * 1000)| * |Real.cos (lon * 1000)| * |(3 : ℝ)| ≤ 1 * |(3 : ℝ)| :=
          mul_le_mul_of_nonneg_right this (abs_nonneg _)
      _ = 3 := by norm_num
  rw [abs_le] at hvar
  constructor <;> linarith [hvar.1, hvar.2]

/-- The -9999 nodata sentinel stored at the only pixel of a 1 x 1 raster. -/
def C8grid : RasterGrid := ⟨1, 1, fun _ _ => -9999⟩

/-- Claim C8 counterexample: reading a raster whose pixel holds the common
nodata sentinel -9999 returns temperature_c = -9999 with no error annotation:
a numeric value far outside the plausible bounds -50…80, not an absent value
with a diagnostic. -/
theorem C8_counterexample :
    (get_temperature_at_raster (fun _ _ => some (0, 0)) C8grid 49 (-123)).temperature_c =
      some (-9999) ∧
    (get_temperature_at_raster (fun _ _ => some (0, 0)) C8grid 49 (-123)).error = none ∧
    ((-9999 : ℚ) < -50) := by
  refine ⟨?_, ?_, by norm_num⟩ <;>
    norm_num [get_temperature_at_raster, C8grid, convert_to_celsius, round1, pyRound,
      Rat.floor_def']

/-- Claim C8 (amended): the sampler never raises. In raster mode it returns
either a numeric temperature with no error, or an absent temperature together
with an error diagnostic; the numeric value lies within -50…80 whenever every
raw pixel value does (out-of-range raw values such as nodata sentinels pass
through unchanged, see the counterexample). Synthetic mode always returns a
numeric value in 25…43, well inside the plausible bounds. -/
theorem C8_sampler_never_raises (transform : ℚ → ℚ → Option (ℤ × ℤ))
    (grid : RasterGrid) (lat lon : ℚ)
    (hpix : ∀ r c, -50 < grid.pixel r c ∧ grid.pixel r c < 80)
    (cLat cLon la lo : ℝ) :
    ((get_temperature_at_raster transform grid lat lon).temperature_c.isSome ∧
        (get_temperature_at_raster transform grid lat lon).error = none ∨
      (get_temperature_at_raster transform grid lat lon).temperature_c = none ∧
        (get_temperature_at_raster transform grid lat lon).error.isSome) ∧
    (∀ t, (get_temperature_at_raster transform grid lat lon).temperature_c = some t →
      -50 ≤ t ∧ t ≤ 80) ∧
    ((synthetic_temperature cLat cLon la lo).error = none ∧
     ∀ t, (synthetic_temperature cLat cLon la lo).temperature_c = some t →
       25 ≤ t ∧ t ≤ 43) := by
  refine ⟨?_, ?_, ?_, ?_⟩
  · cases htr : transform lat lon with
    | none =>
      right
      refine ⟨?_, ?_⟩ <;> simp [get_temperature_at_raster, htr]
    | some rc =>
      obtain ⟨row, col⟩ := rc
      by_cases hb : 0 ≤ row ∧ row < grid.nrows ∧ 0 ≤ col ∧ col < grid.ncols
      · left
        refine ⟨?_, ?_⟩ <;> simp [get_temperature_at_raster, htr, if_pos hb]
      · right
        refine ⟨?_, ?_⟩ <;> simp [get_temperature_at_raster, htr, if_neg hb]
  · intro t ht
    unfold get_temperature_at_raster at ht
    split at ht
    · cases ht
    · rename_i row col heq
      split at ht
      · rename_i hb
        simp only [Option.some.injEq] at ht
        subst ht
        have hp := hpix row col
        have hc : convert_to_celsius (grid.pixel row col) = grid.pixel row col := by
          unfold convert_to_celsius
          rw [if_pos hp]
        rw [hc]
        constructor
        · calc (-50 : ℚ) = round1 (-50) := (round1_int_mul (n := -500) (by norm_num)).symm
            _ ≤ round1 (grid.pixel row col) := round1_mono (le_of_lt hp.1)
        · calc round1 (grid.pixel row col) ≤ round1 80 := round1_mono (le_of_lt hp.2)
            _ = 80 := round1_int_mul (n := 800) (by norm_num)
      · cases ht
  · rfl
  · intro t ht
    simp only [synthetic_temperature, Option.some.injEq] at ht
    subst ht
    have hb := synthetic_value_bounds cLat cLon la lo
    constructor
    · calc (25 : ℝ) = round1R 25 := (round1R_int (n := 250) (by norm_num)).symm
        _ ≤ round1R (synthetic_value cLat cLon la lo) := round1R_mono hb.1
    · calc round1R (synthetic_value cLat cLon la lo) ≤ round1R 43 := round1R_mono hb.2
        _ = 43 := round1R_int (n := 430) (by norm_num)

/-- Witness for C8_sampler_never_raises at a 1 x 1 raster holding 40 degrees. -/
theorem C8_witness :
    ((get_temperature_at_raster (fun _ _ => some (0, 0)) ⟨1, 1, fun _ _ => 40⟩ 49
          (-123)).temperature_c.isSome ∧
        (get_temperature_at_raster (fun _ _ => some (0, 0)) ⟨1, 1, fun _ _ => 40⟩ 49
          (-123)).error = none ∨
      (get_temperature_at_raster (fun _ _ => some (0, 0)) ⟨1, 1, fun _ _ => 40⟩ 49
          (-123)).temperature_c = none ∧
        (get_temperature_at_raster (fun _ _ => some (0, 0)) ⟨1, 1, fun _ _ => 40⟩ 49
          (-123)).error.isSome) ∧
    (∀ t, (get_temperature_at_raster (fun _ _ => some (0, 0)) ⟨1, 1, fun _ _ => 40⟩ 49
        (-123)).temperature_c = some t → -50 ≤ t ∧ t ≤ 80) ∧
    ((synthetic_temperature 49 (-123) 49 (-123)).error = none ∧
     ∀ t, (synthetic_temperature 49 (-123) 49 (-123)).temperature_c = some t →
       25 ≤ t ∧ t ≤ 43) :=
  C8_sampler_never_raises (fun _ _ => some (0, 0)) ⟨1, 1, fun _ _ => 40⟩ 49 (-123)
    (fun _ _ => by norm_num) 49 (-123) 49 (-123)
